import Mathlib

/-!
Shallow embedding of the authentication / OTP core of the "Solution 360"
dashboard repository, together with proofs of the specified properties.

Conventions of the embedding:
* Timestamps are integers counting milliseconds (JS `Date` values compare by
  their millisecond epoch value, so `dateA > dateB` becomes integer `<`/`>`).
* The Firestore `otps` collection of `src/lib/otp.ts` is a list of records in
  collection order; `addDoc` appends, a query filters, `deleteDoc` on the first
  queried document is `List.eraseP`.
* JS `String.prototype.toLowerCase` is modelled on the ASCII and Latin-1
  ranges (the only characters occurring in the role / company strings of the
  program) by `lowerStr`.
-/

/-- JS `toLowerCase` on one character, covering ASCII and the Latin-1
uppercase range U+00C0–U+00DE (excluding the multiplication sign U+00D7),
which maps to U+00E0–U+00FE by adding 32. -/
def jsToLowerChar (c : Char) : Char :=
  if c.toNat ≥ 0xC0 && c.toNat ≤ 0xDE && c.toNat != 0xD7 then Char.ofNat (c.toNat + 32)
  else c.toLower

/-- JS `s.toLowerCase()` (ASCII + Latin-1 model). -/
def lowerStr (s : String) : String := ⟨s.data.map jsToLowerChar⟩

/-- JS `s.includes(c)` for a single character `c`. -/
def containsChar (s : String) (c : Char) : Bool := s.data.contains c

/-- The ASCII apostrophe character, used inside French message texts. -/
def apos : String := String.singleton (Char.ofNat 39)

/-- `strMentions msg sub` states that `sub` occurs verbatim inside `msg`. -/
def strMentions (msg sub : String) : Prop := ∃ a b, msg = a ++ sub ++ b

/-- Milliseconds in one minute. -/
def msPerMinute : Int := 60000

/-- Milliseconds in one day. -/
def msPerDay : Int := 86400000

/-- `OTP_EXPIRY_MINUTES` constant of `src/lib/otp.ts`. -/
def OTP_EXPIRY_MINUTES : Int := 5

/-- One document of the `otps` collection as written by `storeOTP` in
`src/lib/otp.ts`: `{ email, otp, expiryTime, createdAt }`, plus the
auto-generated Firestore document id. -/
structure OtpRecord where
  id : String
  email : String
  otp : String
  expiryTime : Int
  createdAt : Int
deriving Repr, DecidableEq

/-- The `where email == … && otp == …` query predicate of `verifyOTP`. -/
def otpMatches (email otp : String) (r : OtpRecord) : Bool :=
  r.email == email && r.otp == otp

/-- `storeOTP` of `src/lib/otp.ts`: computes `expiryTime = now + 5 minutes`
and `addDoc`s `{ email, otp, expiryTime, createdAt }` to the `otps`
collection (`docId` is the id Firestore generates for the new document). -/
def storeOTP (store : List OtpRecord) (email otp : String) (now : Int)
    (docId : String) : List OtpRecord :=
  store ++ [{ id := docId, email := email, otp := otp,
              expiryTime := now + OTP_EXPIRY_MINUTES * msPerMinute, createdAt := now }]

/-- The three exits of `verifyOTP`: no matching document, matched but
`now > expiryTime`, matched and unexpired. The TS function reports the first
two as `false` and the last as `true`; the constructors record which branch
was taken. -/
inductive VerifyResult
  | valid
  | expired
  | notFound
deriving Repr, DecidableEq

/-- `verifyOTP` of `src/lib/otp.ts`: query the `otps` collection for documents
matching both email and code; if none, report no match; otherwise take
`querySnapshot.docs[0]`, compare `now` against its `expiryTime`, and in both
the expired and the valid case `deleteDoc` that first matching document. -/
def verifyOTP (store : List OtpRecord) (email otp : String) (now : Int) :
    VerifyResult × List OtpRecord :=
  match store.filter (otpMatches email otp) with
  | [] => (.notFound, store)
  | r :: _ =>
    if r.expiryTime < now then (.expired, store.eraseP (otpMatches email otp))
    else (.valid, store.eraseP (otpMatches email otp))

lemma verifyOTP_no_match (store : List OtpRecord) (email otp : String) (now : Int)
    (h : store.filter (otpMatches email otp) = []) :
    verifyOTP store email otp now = (.notFound, store) := by
  unfold verifyOTP
  rw [h]

lemma verifyOTP_found (store : List OtpRecord) (email otp : String) (now : Int)
    (r : OtpRecord) (rest : List OtpRecord)
    (h : store.filter (otpMatches email otp) = r :: rest) :
    verifyOTP store email otp now =
      if r.expiryTime < now then (.expired, store.eraseP (otpMatches email otp))
      else (.valid, store.eraseP (otpMatches email otp)) := by
  unfold verifyOTP
  rw [h]

lemma filter_eraseP {α : Type} (p : α → Bool) (l : List α) (r : α) (rest : List α)
    (h : l.filter p = r :: rest) : (l.eraseP p).filter p = rest := by
  induction l with
  | nil => simp at h
  | cons a t ih =>
    cases hpa : p a with
    | true =>
      rw [List.filter_cons_of_pos hpa] at h
      rw [List.eraseP_cons_of_pos hpa]
      exact (List.cons.injEq _ _ _ _ ▸ h).2
    | false =>
      rw [List.filter_cons_of_neg (by simp [hpa])] at h
      rw [List.eraseP_cons_of_neg (by simp [hpa]), List.filter_cons_of_neg (by simp [hpa])]
      exact ih h

lemma not_mem_eraseP {α : Type} [DecidableEq α] (p : α → Bool) (l : List α)
    (r : α) (rest : List α) (h : l.filter p = r :: rest) (hr : r ∉ rest) :
    r ∉ l.eraseP p := by
  have hpr : p r = true := by
    have : r ∈ l.filter p := by rw [h]; exact List.mem_cons_self r rest
    exact (List.mem_filter.mp this).2
  induction l with
  | nil => simp at h
  | cons a t ih =>
    cases hpa : p a with
    | true =>
      rw [List.filter_cons_of_pos hpa] at h
      obtain ⟨rfl, hrest⟩ := List.cons.injEq _ _ _ _ ▸ h
      rw [List.eraseP_cons_of_pos hpa]
      intro hmem
      exact hr (hrest ▸ List.mem_filter.mpr ⟨hmem, hpr⟩)
    | false =>
      rw [List.filter_cons_of_neg (by simp [hpa])] at h
      rw [List.eraseP_cons_of_neg (by simp [hpa])]
      intro hmem
      rcases List.mem_cons.mp hmem with heq | hmem2
      · rw [heq] at hpr
        simp [hpa] at hpr
      · exact ih h hmem2

/-- Claim C2: an issued code verifies as Valid with the exact code within
5 minutes of issuance; a second verify of the same pair then reports NotFound
(single use); and any candidate code matching no outstanding record for the
email reports NotFound. -/
theorem otp_issue_verify_single_use (store : List OtpRecord) (email otp : String)
    (t0 t1 t2 : Int) (docId : String)
    (hfresh : store.filter (otpMatches email otp) = [])
    (hwithin : t1 ≤ t0 + 5 * msPerMinute) :
    (verifyOTP (storeOTP store email otp t0 docId) email otp t1).1 = .valid ∧
    (verifyOTP (verifyOTP (storeOTP store email otp t0 docId) email otp t1).2
      email otp t2).1 = .notFound ∧
    (∀ c : String,
      (storeOTP store email otp t0 docId).filter (otpMatches email c) = [] →
      (verifyOTP (storeOTP store email otp t0 docId) email c t1).1 = .notFound) := by
  set rec : OtpRecord :=
    { id := docId, email := email, otp := otp,
      expiryTime := t0 + OTP_EXPIRY_MINUTES * msPerMinute, createdAt := t0 } with hrec
  have hmatch : otpMatches email otp rec = true := by simp [otpMatches, hrec]
  have hfilter : (storeOTP store email otp t0 docId).filter (otpMatches email otp)
      = [rec] := by
    unfold storeOTP
    rw [List.filter_append, hfresh, hrec]
    simp [otpMatches]
  have hnotexp : ¬ (rec.expiryTime < t1) := by
    simp only [hrec, OTP_EXPIRY_MINUTES]
    omega
  have hstep := verifyOTP_found (storeOTP store email otp t0 docId) email otp t1 rec [] hfilter
  rw [if_neg hnotexp] at hstep
  refine ⟨by rw [hstep], ?_, ?_⟩
  · rw [hstep]
    have herased : ((storeOTP store email otp t0 docId).eraseP
        (otpMatches email otp)).filter (otpMatches email otp) = [] :=
      filter_eraseP _ _ _ _ hfilter
    rw [verifyOTP_no_match _ _ _ _ herased]
  · intro c hc
    rw [verifyOTP_no_match _ _ _ _ hc]

theorem otp_issue_verify_single_use_witness :
    (verifyOTP (storeOTP [] "a@b.com" "123456" 0 "d1") "a@b.com" "123456" 1000).1
      = .valid ∧
    (verifyOTP (verifyOTP (storeOTP [] "a@b.com" "123456" 0 "d1") "a@b.com" "123456" 1000).2
      "a@b.com" "123456" 2000).1 = .notFound ∧
    (∀ c : String,
      (storeOTP [] "a@b.com" "123456" 0 "d1").filter (otpMatches "a@b.com" c) = [] →
      (verifyOTP (storeOTP [] "a@b.com" "123456" 0 "d1") "a@b.com" c 1000).1 = .notFound) :=
  otp_issue_verify_single_use [] "a@b.com" "123456" 0 1000 2000 "d1"
    (by decide) (by decide)

/-- Claim C3: when `verifyOTP` matches a record that is past its expiry it
reports Expired; whenever it matches a record at all (expired or valid) the
matched document is deleted from the store, so — documents being distinct —
it can never be matched again. -/
theorem otp_verify_deletes_matched (store : List OtpRecord) (email otp : String)
    (now : Int) (r : OtpRecord) (rest : List OtpRecord)
    (h : store.filter (otpMatches email otp) = r :: rest) :
    (verifyOTP store email otp now).2 = store.eraseP (otpMatches email otp) ∧
    (r.expiryTime < now → (verifyOTP store email otp now).1 = .expired) ∧
    ((verifyOTP store email otp now).2.filter (otpMatches email otp) = rest) ∧
    (r ∉ rest → r ∉ (verifyOTP store email otp now).2) := by
  have hstep := verifyOTP_found store email otp now r rest h
  have hsnd : (verifyOTP store email otp now).2 = store.eraseP (otpMatches email otp) := by
    rw [hstep]
    by_cases hc : r.expiryTime < now
    · rw [if_pos hc]
    · rw [if_neg hc]
  refine ⟨hsnd, ?_, ?_, ?_⟩
  · intro hexp
    rw [hstep, if_pos hexp]
  · rw [hsnd]
    exact filter_eraseP _ _ _ _ h
  · intro hr
    rw [hsnd]
    exact not_mem_eraseP _ _ _ _ h hr

theorem otp_verify_deletes_matched_witness :
    (verifyOTP [⟨"d1", "a@b.com", "123456", 300000, 0⟩] "a@b.com" "123456" 400000).2
      = List.eraseP (otpMatches "a@b.com" "123456") [⟨"d1", "a@b.com", "123456", 300000, 0⟩] ∧
    ((300000 : Int) < 400000 →
      (verifyOTP [⟨"d1", "a@b.com", "123456", 300000, 0⟩] "a@b.com" "123456" 400000).1
        = .expired) ∧
    ((verifyOTP [⟨"d1", "a@b.com", "123456", 300000, 0⟩] "a@b.com" "123456" 400000).2.filter
      (otpMatches "a@b.com" "123456") = []) ∧
    ((⟨"d1", "a@b.com", "123456", 300000, 0⟩ : OtpRecord) ∉ ([] : List OtpRecord) →
      (⟨"d1", "a@b.com", "123456", 300000, 0⟩ : OtpRecord) ∉
        (verifyOTP [⟨"d1", "a@b.com", "123456", 300000, 0⟩] "a@b.com" "123456" 400000).2) :=
  otp_verify_deletes_matched [⟨"d1", "a@b.com", "123456", 300000, 0⟩]
    "a@b.com" "123456" 400000 ⟨"d1", "a@b.com", "123456", 300000, 0⟩ [] (by decide)

/-- Claim C8: `storeOTP` appends one new record with expiry `now + 5 minutes`
and leaves every previously stored record in place, so several
simultaneously valid codes can coexist for one email. -/
theorem storeOTP_preserves_prior (store : List OtpRecord) (email otp : String)
    (now : Int) (docId : String) :
    storeOTP store email otp now docId =
      store ++ [{ id := docId, email := email, otp := otp,
                  expiryTime := now + 5 * msPerMinute, createdAt := now }] ∧
    (∀ r ∈ store, r ∈ storeOTP store email otp now docId) ∧
    (storeOTP store email otp now docId).length = store.length + 1 := by
  refine ⟨rfl, ?_, by simp [storeOTP]⟩
  intro r hr
  unfold storeOTP
  exact List.mem_append_left _ hr

theorem storeOTP_preserves_prior_witness :
    storeOTP [⟨"d0", "a@b.com", "111111", 300000, 0⟩] "a@b.com" "222222" 60000 "d1" =
      [⟨"d0", "a@b.com", "111111", 300000, 0⟩] ++
        [{ id := "d1", email := "a@b.com", otp := "222222",
           expiryTime := 60000 + 5 * msPerMinute, createdAt := 60000 }] ∧
    (∀ r ∈ [(⟨"d0", "a@b.com", "111111", 300000, 0⟩ : OtpRecord)],
      r ∈ storeOTP [⟨"d0", "a@b.com", "111111", 300000, 0⟩] "a@b.com" "222222" 60000 "d1") ∧
    (storeOTP [⟨"d0", "a@b.com", "111111", 300000, 0⟩] "a@b.com" "222222" 60000 "d1").length
      = [(⟨"d0", "a@b.com", "111111", 300000, 0⟩ : OtpRecord)].length + 1 :=
  storeOTP_preserves_prior [⟨"d0", "a@b.com", "111111", 300000, 0⟩] "a@b.com" "222222" 60000 "d1"

/-- One entry of the `loginHistory` array of a user:
`{ timestamp, ipAddress, status, reason? }`. -/
structure LoginEntry where
  timestamp : Int
  ipAddress : String
  status : String
  reason : Option String
deriving Repr, DecidableEq

/-- One document of the `users` collection (the fields the auth provider
reads and writes). `id` is the Firebase uid keying the document — readers
inject it as `id: doc.id` on read. `dataId` is the optional `id` field
stored *inside* the document data, which the raw `userDoc.data()` used by
`signIn` exposes as `userData.id`: no write path in this repository
(`createUser` in `src/lib/users.ts`, the default-profile writes of the auth
provider) ever stores one, so documents this codebase writes carry `none`. -/
structure UserRec where
  id : String
  dataId : Option String
  email : String
  name : String
  company : String
  role : String
  lastLogin : Int
  lastLoginIp : String
  loginCount7Days : Nat
  createdAt : Int
  loginHistory : List LoginEntry
deriving Repr, DecidableEq

/-- One document of the `companies` collection (the fields
`validateIpRestrictions` reads). An absent `allowedIps` field is the empty
list. -/
structure CompanyRecord where
  id : String
  name : String
  allowedIps : List String
deriving Repr, DecidableEq

/-- The Firestore state the sign-in flows read and write. -/
structure AuthDb where
  users : List UserRec
  companies : List CompanyRecord
deriving Repr, DecidableEq

/-- Firestore `arrayUnion(e)` on an array field: appends `e` unless an equal
element is already present. -/
def arrayUnionAppend (l : List LoginEntry) (e : LoginEntry) : List LoginEntry :=
  if e ∈ l then l else l ++ [e]

/-- The company lookup of `validateIpRestrictions`:
`companiesSnapshot.docs.find(doc => doc.data().name.toLowerCase() ===
userData.company.toLowerCase())`. -/
def findCompany (companies : List CompanyRecord) (companyName : String) :
    Option CompanyRecord :=
  companies.find? (fun c => lowerStr c.name == lowerStr companyName)

/-- The rejection message built by `validateIpRestrictions`. -/
def ipRejectionMessage (ip : String) (allowed : List String) : String :=
  "Accès refusé: Votre IP (" ++ ip ++
    (") n" ++ apos ++ "est pas autorisée pour cette entreprise. Les IPs autorisées sont: ") ++
    String.intercalate ", " allowed ++ "."

/-- Result of the IP-restriction check. -/
inductive IpCheckResult
  | allowed
  | rejected (msg : String)
deriving Repr, DecidableEq

/-- `validateIpRestrictions(userData, ipAddress)` of the auth provider: only
for users whose role lowercases to `employé` it looks up the company record
whose name matches the company of the user case-insensitively; if that record
exists and has a non-empty `allowedIps` not containing the caller IP, the
rejection path runs — but its first step, `doc(db, 'users', userData.id)`
for the failure logging, throws synchronously when the stored data has no
`id` field, and the enclosing catch rethrows only errors whose message
contains `Accès refusé`, so that throw is swallowed and the function returns
normally: the attempt is rejected only when `userData.id` is present. In
every other case (other role, no company match, empty allow-list, IP
allow-listed, absent `id` field) the attempt passes. -/
def validateIpRestrictions (companies : List CompanyRecord) (userData : UserRec)
    (ipAddress : String) : IpCheckResult :=
  if lowerStr userData.role = "employé" then
    match findCompany companies userData.company with
    | some c =>
      if c.allowedIps.length > 0 ∧ ipAddress ∉ c.allowedIps then
        match userData.dataId with
        | some _ => .rejected (ipRejectionMessage ipAddress c.allowedIps)
        | none => .allowed
      else .allowed
    | none => .allowed
  else .allowed

/-- `updateLoginHistory(userRef, userData, ipAddress, timestamp)` of the auth
provider: counts the existing history entries strictly newer than seven days
before now, adds one for the current login, and writes `lastLogin`,
`lastLoginIp`, `loginCount7Days` and the `arrayUnion`-appended `success`
entry in a single update. -/
def updateLoginHistory (u : UserRec) (ipAddress : String) (ts : Int) : UserRec :=
  let sevenDaysAgo := ts - 7 * msPerDay
  let count7 := (u.loginHistory.filter (fun e => sevenDaysAgo < e.timestamp)).length + 1
  { u with lastLogin := ts, lastLoginIp := ipAddress, loginCount7Days := count7,
           loginHistory := arrayUnionAppend u.loginHistory
             (LoginEntry.mk ts ipAddress "success" none) }

/-- Apply `f` to the user document keyed by `uid` (Firestore
`updateDoc(doc(db, users, uid), …)`). -/
def updateUser (users : List UserRec) (uid : String) (f : UserRec → UserRec) :
    List UserRec :=
  users.map (fun w => if w.id = uid then f w else w)

/-- The default user document `signIn` creates when no document exists for
the authenticated uid (it stores no `id` field either). -/
def createDefaultUser (uid email ipAddress : String) (ts : Int) : UserRec :=
  { id := uid, dataId := none, email := email, name := "Utilisateur", company := "",
    role := "Employé", lastLogin := ts, lastLoginIp := ipAddress,
    loginCount7Days := 1, createdAt := ts,
    loginHistory := [{ timestamp := ts, ipAddress := ipAddress,
                       status := "success", reason := none }] }

/-- Outcome of a password sign-in attempt after the identity provider
accepted the credentials. -/
inductive SignInOutcome
  | accepted
  | ipRejected (msg : String)
deriving Repr, DecidableEq

/-- State after a password sign-in attempt: the surfaced outcome, the users
collection, and whether the identity-provider session is still alive. -/
structure SignInResult where
  outcome : SignInOutcome
  users : List UserRec
  sessionActive : Bool
deriving Repr, DecidableEq

/-- The `updateDoc … arrayUnion` performed by `validateIpRestrictions` when it
rejects: record the failed attempt in the login history of the user. -/
def logHistoryEntry (w : UserRec) (e : LoginEntry) : UserRec :=
  { w with loginHistory := arrayUnionAppend w.loginHistory e }

/-- The body of `signIn` once the user document `u` has been loaded: run
`validateIpRestrictions`; on rejection (possible only when the stored data
carries an `id` field) log a `failed` history entry with the rejection
message as reason on the document keyed by that stored `id` value (a no-op
when no document has that key, mirroring the swallowed `updateDoc` failure),
sign out of the identity provider and surface the message; on acceptance run
`updateLoginHistory` on the uid-keyed document and keep the session. -/
def signInAfterAuth (db2 : AuthDb) (u : UserRec) (ipAddress : String) (ts : Int) :
    SignInResult :=
  match validateIpRestrictions db2.companies u ipAddress with
  | .rejected msg =>
    { outcome := .ipRejected msg,
      users := match u.dataId with
        | some did => updateUser db2.users did (fun w =>
            logHistoryEntry w (LoginEntry.mk ts ipAddress "failed" (some msg)))
        | none => db2.users,
      sessionActive := false }
  | .allowed =>
    { outcome := .accepted,
      users := updateUser db2.users u.id (fun w => updateLoginHistory w ipAddress ts),
      sessionActive := true }

/-- The Firestore phase of `signIn` keyed on whether a user document exists
for the authenticated uid: if it does, validate and update it; if not,
create a default Employee-role document whose history already holds the
current `success` entry. -/
def signInPostAuth (db2 : AuthDb) (uid email ipAddress : String) (ts : Int) :
    SignInResult :=
  match db2.users.find? (fun w => w.id == uid) with
  | some u => signInAfterAuth db2 u ipAddress ts
  | none =>
    { outcome := .accepted,
      users := db2.users ++ [createDefaultUser uid email ipAddress ts],
      sessionActive := true }

lemma find?_updateUser (users : List UserRec) (uid : String) (f : UserRec → UserRec)
    (u : UserRec) (hid : ∀ w, (f w).id = w.id)
    (h : users.find? (fun w => w.id == uid) = some u) :
    (updateUser users uid f).find? (fun w => w.id == uid) = some (f u) := by
  induction users with
  | nil => simp at h
  | cons w t ih =>
    show List.find? (fun w => w.id == uid)
      ((if w.id = uid then f w else w) :: updateUser t uid f) = some (f u)
    by_cases hw : w.id = uid
    · rw [List.find?_cons_of_pos _ (by simp [hw])] at h
      rw [if_pos hw, List.find?_cons_of_pos _ (by simp [hid w, hw])]
      simp only [Option.some.injEq] at h ⊢
      rw [h]
    · rw [List.find?_cons_of_neg _ (by simp [hw])] at h
      rw [if_neg hw, List.find?_cons_of_neg _ (by simp [hw])]
      exact ih h

lemma signInAfterAuth_of_allowed (db2 : AuthDb) (u : UserRec) (ipAddress : String)
    (ts : Int) (h : validateIpRestrictions db2.companies u ipAddress = .allowed) :
    signInAfterAuth db2 u ipAddress ts =
      { outcome := .accepted,
        users := updateUser db2.users u.id (fun w => updateLoginHistory w ipAddress ts),
        sessionActive := true } := by
  unfold signInAfterAuth
  rw [h]

lemma validate_rejects (companies : List CompanyRecord) (u : UserRec)
    (c : CompanyRecord) (ipAddress did : String)
    (hrole : lowerStr u.role = "employé")
    (hfc : findCompany companies u.company = some c)
    (hne : c.allowedIps ≠ []) (hni : ipAddress ∉ c.allowedIps)
    (hdid : u.dataId = some did) :
    validateIpRestrictions companies u ipAddress =
      .rejected (ipRejectionMessage ipAddress c.allowedIps) := by
  unfold validateIpRestrictions
  rw [if_pos hrole, hfc, hdid]
  exact if_pos ⟨List.length_pos.mpr hne, hni⟩

lemma validate_allows_member (companies : List CompanyRecord) (u : UserRec)
    (c : CompanyRecord) (ipAddress : String)
    (hrole : lowerStr u.role = "employé")
    (hfc : findCompany companies u.company = some c)
    (hin : ipAddress ∈ c.allowedIps) :
    validateIpRestrictions companies u ipAddress = .allowed := by
  unfold validateIpRestrictions
  rw [if_pos hrole, hfc]
  exact if_neg (fun hc => hc.2 hin)

/-- A sample Employee-role user as this repository writes it: keyed by the
uid `u1`, with no `id` field stored in the document data. -/
def sampleUser : UserRec :=
  { id := "u1", dataId := none, email := "emp@acme.com", name := "Utilisateur",
    company := "ACME", role := "Employé", lastLogin := 0, lastLoginIp := "",
    loginCount7Days := 0, createdAt := 0, loginHistory := [] }

/-- A sample company with a one-entry IP allow-list. -/
def sampleCompany : CompanyRecord :=
  { id := "c1", name := "acme", allowedIps := ["1.2.3.4"] }

/-- The `sampleUser` document after the fail-open sign-in from `9.9.9.9` at
time 0: a `success` entry, the count recomputed, the session fields set. -/
def sampleUserAfterFailOpen : UserRec :=
  { sampleUser with
      lastLogin := 0
      lastLoginIp := "9.9.9.9"
      loginCount7Days := 1
      loginHistory := [LoginEntry.mk 0 "9.9.9.9" "success" none] }

/-- Claim C1, evaluated at the failing input: an Employee-class user document
as this repository writes it (no stored `id` field), company allow-list
`["1.2.3.4"]`, signing in from `9.9.9.9`. The claimed rejection never fires:
the failure-logging step reads the absent `id` field, its synchronous error
is swallowed by a catch that rethrows only access-denied messages, and the
attempt is accepted — the session survives and a `success` entry is
persisted in place of the claimed `failed` entry, sign-out and surfaced
error. -/
theorem employee_ip_allowlist_fail_open :
    validateIpRestrictions [sampleCompany] sampleUser "9.9.9.9" = .allowed ∧
    (signInAfterAuth ⟨[sampleUser], [sampleCompany]⟩ sampleUser "9.9.9.9" 0).outcome
      = .accepted ∧
    (signInAfterAuth ⟨[sampleUser], [sampleCompany]⟩ sampleUser "9.9.9.9" 0).sessionActive
      = true ∧
    (signInAfterAuth ⟨[sampleUser], [sampleCompany]⟩ sampleUser "9.9.9.9" 0).users
      = [sampleUserAfterFailOpen] := by
  decide

/-- Claim C4: the allow-list check fires only for users whose role lowercases
to the Employee class with a matched company record carrying a non-empty
allow-list; a non-Employee role, a missing company record, or an empty
allow-list each let the sign-in through regardless of source IP. -/
theorem ip_check_only_for_employees
    (users : List UserRec) (companies : List CompanyRecord)
    (u : UserRec) (ipAddress : String) (ts : Int) :
    (lowerStr u.role ≠ "employé" →
      validateIpRestrictions companies u ipAddress = .allowed ∧
      (signInAfterAuth ⟨users, companies⟩ u ipAddress ts).outcome = .accepted ∧
      (signInAfterAuth ⟨users, companies⟩ u ipAddress ts).sessionActive = true) ∧
    (findCompany companies u.company = none →
      validateIpRestrictions companies u ipAddress = .allowed ∧
      (signInAfterAuth ⟨users, companies⟩ u ipAddress ts).outcome = .accepted ∧
      (signInAfterAuth ⟨users, companies⟩ u ipAddress ts).sessionActive = true) ∧
    (∀ c, findCompany companies u.company = some c → c.allowedIps = [] →
      validateIpRestrictions companies u ipAddress = .allowed ∧
      (signInAfterAuth ⟨users, companies⟩ u ipAddress ts).outcome = .accepted ∧
      (signInAfterAuth ⟨users, companies⟩ u ipAddress ts).sessionActive = true) ∧
    (∀ msg, validateIpRestrictions companies u ipAddress = .rejected msg →
      lowerStr u.role = "employé" ∧
      ∃ c, findCompany companies u.company = some c ∧
        c.allowedIps ≠ [] ∧ ipAddress ∉ c.allowedIps) := by
  have accepted_of_allowed :
      validateIpRestrictions companies u ipAddress = .allowed →
      (signInAfterAuth ⟨users, companies⟩ u ipAddress ts).outcome = .accepted ∧
      (signInAfterAuth ⟨users, companies⟩ u ipAddress ts).sessionActive = true := by
    intro h
    rw [signInAfterAuth_of_allowed ⟨users, companies⟩ u ipAddress ts h]
    exact ⟨rfl, rfl⟩
  refine ⟨?_, ?_, ?_, ?_⟩
  · intro hrole
    have hval : validateIpRestrictions companies u ipAddress = .allowed := by
      unfold validateIpRestrictions
      rw [if_neg hrole]
    exact ⟨hval, accepted_of_allowed hval⟩
  · intro hnone
    have hval : validateIpRestrictions companies u ipAddress = .allowed := by
      unfold validateIpRestrictions
      by_cases hrole : lowerStr u.role = "employé"
      · rw [if_pos hrole, hnone]
      · rw [if_neg hrole]
    exact ⟨hval, accepted_of_allowed hval⟩
  · intro c hfc hempty
    have hval : validateIpRestrictions companies u ipAddress = .allowed := by
      unfold validateIpRestrictions
      by_cases hrole : lowerStr u.role = "employé"
      · rw [if_pos hrole, hfc]
        exact if_neg (fun hc => by rw [hempty] at hc; simp at hc)
      · rw [if_neg hrole]
    exact ⟨hval, accepted_of_allowed hval⟩
  · intro msg h
    unfold validateIpRestrictions at h
    by_cases hrole : lowerStr u.role = "employé"
    · rw [if_pos hrole] at h
      refine ⟨hrole, ?_⟩
      cases hfc : findCompany companies u.company with
      | none => rw [hfc] at h; simp at h
      | some c =>
        rw [hfc] at h
        by_cases hcond : c.allowedIps.length > 0 ∧ ipAddress ∉ c.allowedIps
        · refine ⟨c, rfl, fun he => ?_, hcond.2⟩
          rw [he] at hcond
          simp at hcond
        · have h2 : (if c.allowedIps.length > 0 ∧ ipAddress ∉ c.allowedIps then
              (match u.dataId with
                | some _ => IpCheckResult.rejected (ipRejectionMessage ipAddress c.allowedIps)
                | none => IpCheckResult.allowed)
            else IpCheckResult.allowed) = IpCheckResult.rejected msg := h
          rw [if_neg hcond] at h2
          simp at h2
    · rw [if_neg hrole] at h
      simp at h

/-- A sample Admin-role user (same profile as `sampleUser` but for the role). -/
def sampleAdmin : UserRec :=
  { sampleUser with id := "u2", role := "Admin" }

theorem ip_check_only_for_employees_witness :
    validateIpRestrictions [sampleCompany] sampleAdmin "9.9.9.9" = .allowed ∧
    (signInAfterAuth ⟨[sampleAdmin], [sampleCompany]⟩ sampleAdmin "9.9.9.9" 0).outcome
      = .accepted := by
  have h := (ip_check_only_for_employees [sampleAdmin] [sampleCompany]
    sampleAdmin "9.9.9.9" 0).1 (by decide)
  exact ⟨h.1, h.2.1⟩

/-- Claim C5: only history entries from the trailing seven-day window count:
with `recent` entries inside the window and `old` ones outside it, the
persisted `loginCount7Days` is `recent.length + 1` (the current login
included), independent of how many old entries exist; `lastLogin`,
`lastLoginIp` and the appended `success` entry are persisted together. -/
theorem loginCount_rolling_window (u : UserRec) (old recent : List LoginEntry)
    (ipAddress : String) (ts : Int)
    (hhist : u.loginHistory = old ++ recent)
    (hold : ∀ e ∈ old, e.timestamp ≤ ts - 7 * msPerDay)
    (hrecent : ∀ e ∈ recent, ts - 7 * msPerDay < e.timestamp)
    (hfresh : LoginEntry.mk ts ipAddress "success" none ∉ u.loginHistory) :
    (updateLoginHistory u ipAddress ts).loginCount7Days = recent.length + 1 ∧
    (updateLoginHistory u ipAddress ts).lastLogin = ts ∧
    (updateLoginHistory u ipAddress ts).lastLoginIp = ipAddress ∧
    (updateLoginHistory u ipAddress ts).loginHistory
      = u.loginHistory ++ [LoginEntry.mk ts ipAddress "success" none] ∧
    ((updateLoginHistory u ipAddress ts).loginHistory.filter
      (fun e => decide (ts - 7 * msPerDay < e.timestamp))).length
      = recent.length + 1 := by
  have hfilter : u.loginHistory.filter
      (fun e => decide (ts - 7 * msPerDay < e.timestamp)) = recent := by
    rw [hhist, List.filter_append]
    have h1 : old.filter (fun e => decide (ts - 7 * msPerDay < e.timestamp)) = [] := by
      rw [List.filter_eq_nil_iff]
      intro e he
      simp only [decide_eq_true_eq]
      have := hold e he
      omega
    have h2 : recent.filter (fun e => decide (ts - 7 * msPerDay < e.timestamp))
        = recent := by
      rw [List.filter_eq_self]
      intro e he
      simp only [decide_eq_true_eq]
      exact hrecent e he
    rw [h1, h2, List.nil_append]
  have hunion : arrayUnionAppend u.loginHistory (LoginEntry.mk ts ipAddress "success" none)
      = u.loginHistory ++ [LoginEntry.mk ts ipAddress "success" none] := by
    unfold arrayUnionAppend
    rw [if_neg hfresh]
  refine ⟨?_, rfl, rfl, ?_, ?_⟩
  · simp only [updateLoginHistory, hfilter]
  · simp only [updateLoginHistory, hunion]
  · simp only [updateLoginHistory, hunion, List.filter_append, hfilter]
    have hcur : List.filter (fun e => decide (ts - 7 * msPerDay < e.timestamp))
        [LoginEntry.mk ts ipAddress "success" none]
        = [LoginEntry.mk ts ipAddress "success" none] := by
      rw [List.filter_eq_self]
      intro e he
      simp only [List.mem_singleton] at he
      rw [he]
      simp only [decide_eq_true_eq]
      unfold msPerDay
      omega
    rw [hcur]
    simp

theorem loginCount_rolling_window_witness :
    (updateLoginHistory
      { sampleUser with loginHistory :=
          [LoginEntry.mk 0 "1.2.3.4" "success" none,
           LoginEntry.mk (9 * msPerDay) "1.2.3.4" "success" none] }
      "1.2.3.4" (10 * msPerDay)).loginCount7Days = 2 :=
  (loginCount_rolling_window
    { sampleUser with loginHistory :=
        [LoginEntry.mk 0 "1.2.3.4" "success" none,
         LoginEntry.mk (9 * msPerDay) "1.2.3.4" "success" none] }
    [LoginEntry.mk 0 "1.2.3.4" "success" none]
    [LoginEntry.mk (9 * msPerDay) "1.2.3.4" "success" none]
    "1.2.3.4" (10 * msPerDay) (by decide) (by decide) (by decide) (by decide)).1

/-- Result of `sendMagicLink`: rejected for a malformed email, rejected
because no user document carries the email, or link sent (with the email
persisted to local storage for the later verification step). -/
inductive MagicLinkSendResult
  | invalidEmail
  | noAccount
  | sent (storedEmail : String)
deriving Repr, DecidableEq

/-- `sendMagicLink(email)` of the auth provider: reject an email without `@`;
require an existing user document whose `email` field equals the input
exactly; only then request the provider link and store the email locally. -/
def sendMagicLink (users : List UserRec) (email : String) : MagicLinkSendResult :=
  if email.isEmpty || !(containsChar email '@') then .invalidEmail
  else if (users.filter (fun w => w.email == email)).isEmpty then .noAccount
  else .sent email

/-- State after `verifyMagicLink`: the surfaced error (if any), the users
collection (never written on failure — this path creates no profile), and
the uid placed into the in-memory session. -/
structure MagicVerifyResult where
  error : Option String
  users : List UserRec
  sessionUser : Option String
deriving Repr, DecidableEq

/-- `verifyMagicLink()` of the auth provider, after the provider signed the
link in as uid `uid`: an unrecognized link is fatal; a missing user document
is fatal with no document created (asymmetric with the password path); on
success the login history is updated by the same `updateLoginHistory` step
the password path runs, and the session is set to the profile. -/
def verifyMagicLink (users : List UserRec) (linkValid : Bool) (uid ipAddress : String)
    (ts : Int) : MagicVerifyResult :=
  if !linkValid then
    { error := some "Invalid magic link", users := users, sessionUser := none }
  else
    match users.find? (fun w => w.id == uid) with
    | none =>
      { error := some "User data not found. Please contact your administrator.",
        users := users, sessionUser := none }
    | some _ =>
      { error := none,
        users := updateUser users uid (fun w => updateLoginHistory w ipAddress ts),
        sessionUser := some uid }

/-- Claim C9: `sendMagicLink` never sends when no user document carries the
email; `verifyMagicLink` is fatal without a user document and creates none,
while the password path in the same situation creates a default
Employee-role profile; and on magic-link success the users collection is
updated exactly as by the acceptance step of the password path. -/
theorem magic_link_requires_profile
    (users : List UserRec) (companies : List CompanyRecord)
    (email uid ipAddress : String) (ts : Int) :
    ((users.filter (fun w => w.email == email)).isEmpty = true →
      ∀ e : String, sendMagicLink users email ≠ .sent e) ∧
    (users.find? (fun w => w.id == uid) = none →
      (verifyMagicLink users true uid ipAddress ts).error
        = some "User data not found. Please contact your administrator." ∧
      (verifyMagicLink users true uid ipAddress ts).users = users ∧
      (verifyMagicLink users true uid ipAddress ts).sessionUser = none) ∧
    (users.find? (fun w => w.id == uid) = none →
      (signInPostAuth ⟨users, companies⟩ uid email ipAddress ts).users
        = users ++ [createDefaultUser uid email ipAddress ts] ∧
      (createDefaultUser uid email ipAddress ts).role = "Employé") ∧
    (∀ u, users.find? (fun w => w.id == uid) = some u → u.id = uid →
      validateIpRestrictions companies u ipAddress = .allowed →
      (verifyMagicLink users true uid ipAddress ts).error = none ∧
      (verifyMagicLink users true uid ipAddress ts).users
        = (signInAfterAuth ⟨users, companies⟩ u ipAddress ts).users ∧
      (verifyMagicLink users true uid ipAddress ts).sessionUser = some uid) := by
  refine ⟨?_, ?_, ?_, ?_⟩
  · intro hempty e
    unfold sendMagicLink
    by_cases hv : email.isEmpty || !(containsChar email '@')
    · rw [if_pos hv]
      simp
    · rw [if_neg hv, if_pos hempty]
      simp
  · intro hnone
    unfold verifyMagicLink
    rw [hnone]
    exact ⟨rfl, rfl, rfl⟩
  · intro hnone
    constructor
    · unfold signInPostAuth
      rw [hnone]
    · rfl
  · intro u hfound hid hallow
    have hstep := signInAfterAuth_of_allowed ⟨users, companies⟩ u ipAddress ts hallow
    unfold verifyMagicLink
    rw [hfound, hstep, hid]
    exact ⟨rfl, rfl, rfl⟩

theorem magic_link_requires_profile_witness :
    (∀ e : String, sendMagicLink [] "ghost@acme.com" ≠ .sent e) ∧
    (verifyMagicLink [] true "u1" "1.2.3.4" 0).users = [] ∧
    (signInPostAuth ⟨[], [sampleCompany]⟩ "u1" "ghost@acme.com" "1.2.3.4" 0).users
      = [] ++ [createDefaultUser "u1" "ghost@acme.com" "1.2.3.4" 0] := by
  have h := magic_link_requires_profile [] [sampleCompany]
    "ghost@acme.com" "u1" "1.2.3.4" 0
  exact ⟨h.1 (by decide), (h.2.1 (by decide)).2.1, (h.2.2.1 (by decide)).1⟩

/-- The JWT payload minted by the verify-otp route:
`sign({ email, iat }, secret, { expiresIn: 7d })`. -/
structure SessionToken where
  email : String
  iat : Int
  exp : Int
deriving Repr, DecidableEq

/-- The cookie set by the verify-otp route. -/
structure SessionCookie where
  name : String
  token : SessionToken
  httpOnly : Bool
  secure : Bool
  sameSiteStrict : Bool
  maxAge : Int
deriving Repr, DecidableEq

/-- An HTTP response of the route: status, body text, and the cookie, if one
was set. -/
structure ApiResponse where
  status : Nat
  body : String
  cookie : Option SessionCookie
deriving Repr, DecidableEq

/-- JS truthiness of a possibly-absent string field of a request body:
`undefined` and the empty string are falsy. -/
def jsFalsy : Option String → Bool
  | none => true
  | some s => s.isEmpty

/-- Seconds in seven days (`7 * 24 * 60 * 60`). -/
def sevenDaysSeconds : Int := 7 * 24 * 60 * 60

/-- `POST /api/verify-otp` of `src/app/api/verify-otp/route.ts`: 400 when
`email` or `otp` is missing from the body; run `verifyOTP` of the OTP store;
400 `Invalid or expired OTP` when it reports false; otherwise 200 with a
`session` cookie holding a token expiring 7 days after issuance, http-only,
SameSite=Strict, max-age 7 days, and `secure` exactly in production. -/
def verifyOtpRoute (store : List OtpRecord) (email otp : Option String)
    (now : Int) (isProduction : Bool) : ApiResponse × List OtpRecord :=
  if jsFalsy email || jsFalsy otp then
    ({ status := 400, body := "Email and OTP are required", cookie := none }, store)
  else if (verifyOTP store (email.getD "") (otp.getD "") now).1 = .valid then
    ({ status := 200, body := "OTP verified successfully",
       cookie := some { name := "session",
                        token := { email := email.getD "", iat := now / 1000,
                                   exp := now / 1000 + sevenDaysSeconds },
                        httpOnly := true, secure := isProduction,
                        sameSiteStrict := true, maxAge := sevenDaysSeconds } },
     (verifyOTP store (email.getD "") (otp.getD "") now).2)
  else
    ({ status := 400, body := "Invalid or expired OTP", cookie := none },
     (verifyOTP store (email.getD "") (otp.getD "") now).2)

/-- Claim C7: the verify-otp route returns 400 for a body missing email or
otp, 400 `Invalid or expired OTP` when verification fails, and on success
200 with a `session` cookie that is http-only, SameSite=Strict, 7-day
max-age, secure in production, and carries a token expiring 7 days after
issuance. -/
theorem verify_otp_route_contract (store : List OtpRecord)
    (email otp : Option String) (now : Int) (isProduction : Bool) :
    (jsFalsy email = true ∨ jsFalsy otp = true →
      (verifyOtpRoute store email otp now isProduction).1.status = 400 ∧
      (verifyOtpRoute store email otp now isProduction).1.cookie = none) ∧
    (jsFalsy email = false → jsFalsy otp = false →
      (verifyOTP store (email.getD "") (otp.getD "") now).1 ≠ .valid →
      (verifyOtpRoute store email otp now isProduction).1.status = 400 ∧
      (verifyOtpRoute store email otp now isProduction).1.body
        = "Invalid or expired OTP" ∧
      (verifyOtpRoute store email otp now isProduction).1.cookie = none) ∧
    (jsFalsy email = false → jsFalsy otp = false →
      (verifyOTP store (email.getD "") (otp.getD "") now).1 = .valid →
      (verifyOtpRoute store email otp now isProduction).1.status = 200 ∧
      (verifyOtpRoute store email otp now isProduction).1.cookie
        = some { name := "session",
                 token := { email := email.getD "", iat := now / 1000,
                            exp := now / 1000 + sevenDaysSeconds },
                 httpOnly := true, secure := isProduction,
                 sameSiteStrict := true, maxAge := sevenDaysSeconds } ∧
      (∀ ck, (verifyOtpRoute store email otp now isProduction).1.cookie = some ck →
        ck.token.exp = ck.token.iat + sevenDaysSeconds ∧
        ck.httpOnly = true ∧ ck.sameSiteStrict = true ∧
        ck.maxAge = sevenDaysSeconds ∧ ck.secure = isProduction)) := by
  refine ⟨?_, ?_, ?_⟩
  · intro hmiss
    have hcond : (jsFalsy email || jsFalsy otp) = true := by
      rcases hmiss with h | h <;> simp [h]
    unfold verifyOtpRoute
    rw [if_pos hcond]
    exact ⟨rfl, rfl⟩
  · intro he ho hinvalid
    unfold verifyOtpRoute
    rw [if_neg (by simp [he, ho]), if_neg hinvalid]
    exact ⟨rfl, rfl, rfl⟩
  · intro he ho hvalid
    unfold verifyOtpRoute
    rw [if_neg (by simp [he, ho]), if_pos hvalid]
    refine ⟨rfl, rfl, ?_⟩
    intro ck hck
    simp only [Option.some.injEq] at hck
    rw [← hck]
    exact ⟨rfl, rfl, rfl, rfl, rfl⟩

theorem verify_otp_route_contract_witness :
    (verifyOtpRoute [⟨"d1", "a@b.com", "123456", 300000, 0⟩]
      (some "a@b.com") (some "123456") 1000 true).1.status = 200 ∧
    (verifyOtpRoute [⟨"d1", "a@b.com", "123456", 300000, 0⟩]
      (some "a@b.com") (some "999999") 1000 true).1.status = 400 ∧
    (verifyOtpRoute [⟨"d1", "a@b.com", "123456", 300000, 0⟩]
      none (some "123456") 1000 true).1.status = 400 := by
  have hok := (verify_otp_route_contract [⟨"d1", "a@b.com", "123456", 300000, 0⟩]
    (some "a@b.com") (some "123456") 1000 true).2.2 (by decide) (by decide) (by decide)
  have hbad := (verify_otp_route_contract [⟨"d1", "a@b.com", "123456", 300000, 0⟩]
    (some "a@b.com") (some "999999") 1000 true).2.1 (by decide) (by decide) (by decide)
  have hmiss := (verify_otp_route_contract [⟨"d1", "a@b.com", "123456", 300000, 0⟩]
    none (some "123456") 1000 true).1 (Or.inl (by decide))
  exact ⟨hok.1, hbad.1, hmiss.1⟩

/-- `generateOTP` of `src/lib/otp.ts` (the identical helper also appears in
`src/lib/mailtrap.ts` and in the `sendOtpEmail` Cloud Function):
`Math.floor(100000 + Math.random() * 900000)`, as a function of the raw
draw `r = Math.random() ∈ [0, 1)`. The returned value is rendered by
`toString()` with no padding. -/
def generateOTP (r : ℚ) : ℤ := ⌊(100000 : ℚ) + r * 900000⌋

/-- Counterexample to claim C6 as stated: no draw of `Math.random` can make
`generateOTP` produce a value below 100000, so the strings
`"000000"`–`"099999"` — in particular `"000000"` — are impossible outputs
and leading zeros never occur. -/
theorem generateOTP_no_leading_zeros :
    ¬ ∃ r : ℚ, 0 ≤ r ∧ r < 1 ∧ generateOTP r < 100000 := by
  rintro ⟨r, h0, _, hlt⟩
  have hge : (100000 : ℤ) ≤ generateOTP r := by
    unfold generateOTP
    rw [Int.le_floor]
    push_cast
    nlinarith
  omega

/-- Claim C6 (amended): `generateOTP` returns exactly the integers 100000
through 999999 — six digits with a nonzero leading digit (each value is hit
by the same-length interval of draws, the uniformity the claim intends) —
and depends on nothing but the random draw. -/
theorem generateOTP_range_characterization :
    (∀ r : ℚ, 0 ≤ r → r < 1 → 100000 ≤ generateOTP r ∧ generateOTP r ≤ 999999) ∧
    (∀ n : ℤ, 100000 ≤ n → n ≤ 999999 →
      ∃ r : ℚ, 0 ≤ r ∧ r < 1 ∧ generateOTP r = n) := by
  constructor
  · intro r h0 h1
    constructor
    · unfold generateOTP
      rw [Int.le_floor]
      push_cast
      nlinarith
    · have hlt : generateOTP r < 1000000 := by
        unfold generateOTP
        rw [Int.floor_lt]
        push_cast
        nlinarith
      omega
  · intro n hlo hhi
    refine ⟨((n : ℚ) - 100000) / 900000, ?_, ?_, ?_⟩
    · apply div_nonneg _ (by norm_num : (0 : ℚ) ≤ 900000)
      have hq : (100000 : ℚ) ≤ (n : ℚ) := by exact_mod_cast hlo
      linarith
    · rw [div_lt_one (by norm_num)]
      have hq : (n : ℚ) ≤ 999999 := by exact_mod_cast hhi
      linarith
    · unfold generateOTP
      have : (100000 : ℚ) + ((n : ℚ) - 100000) / 900000 * 900000 = (n : ℚ) := by
        field_simp
      rw [this, Int.floor_intCast]

theorem generateOTP_range_characterization_witness :
    (100000 ≤ generateOTP 0 ∧ generateOTP 0 ≤ 999999) ∧
    (∃ r : ℚ, 0 ≤ r ∧ r < 1 ∧ generateOTP r = 123456) :=
  ⟨generateOTP_range_characterization.1 0 le_rfl (by norm_num),
   generateOTP_range_characterization.2 123456 (by norm_num) (by norm_num)⟩

/-- The per-email `otps` document written by the `sendOtpEmail` Cloud
Function: `{ code, email, createdAt, expiresAt, attempts }`. -/
structure FnOtpData where
  code : String
  email : String
  createdAt : Int
  expiresAt : Int
  attempts : Nat
deriving Repr, DecidableEq

/-- The distinct failure exits of the callable `verifyOtp` Cloud Function. -/
inductive FnVerifyOutcome
  | ok
  | invalidEmail
  | invalidOtpFormat
  | notFound
  | expired
  | tooManyAttempts
  | invalidOtp
deriving Repr, DecidableEq

/-- The callable `verifyOtp` of `functions/src/index.ts`, acting on the
single per-email OTP document (`rec`, `none` when absent): validate email
and 6-digit code format; fail NotFound without a document; delete and fail
when expired; delete and fail `Too many attempts` when the attempts counter
has reached 3; on a wrong code increment the counter and fail `Invalid
OTP`; on the right code delete the document and mint the custom token. -/
def fnVerifyOtp (rec : Option FnOtpData) (email otp : String) (now : Int) :
    FnVerifyOutcome × Option FnOtpData :=
  if email.isEmpty || !(containsChar email '@') then (.invalidEmail, rec)
  else if otp.isEmpty || otp.length != 6 || !(otp.data.all Char.isDigit) then
    (.invalidOtpFormat, rec)
  else
    match rec with
    | none => (.notFound, none)
    | some d =>
      if d.expiresAt < now then (.expired, none)
      else if 3 ≤ d.attempts then (.tooManyAttempts, none)
      else if d.code ≠ otp then (.invalidOtp, some { d with attempts := d.attempts + 1 })
      else (.ok, none)

/-- Claim C10: in the callable `verifyOtp`, a wrong code with fewer than 3
recorded attempts increments the attempts counter; any attempt once the
counter has reached 3 deletes the document and fails with Too many
attempts; so starting from a fresh document exactly three wrong guesses are
compared before a fourth wrong attempt destroys the code. -/
theorem fn_verify_otp_attempt_limit (email otp : String) (d : FnOtpData)
    (t1 t2 t3 t4 : Int)
    (hemail : (email.isEmpty || !(containsChar email '@')) = false)
    (hformat : (otp.isEmpty || otp.length != 6 || !(otp.data.all Char.isDigit)) = false)
    (hwrong : d.code ≠ otp)
    (h1 : ¬ (d.expiresAt < t1)) (h2 : ¬ (d.expiresAt < t2))
    (h3 : ¬ (d.expiresAt < t3)) (h4 : ¬ (d.expiresAt < t4)) :
    (d.attempts < 3 →
      fnVerifyOtp (some d) email otp t1
        = (.invalidOtp, some { d with attempts := d.attempts + 1 })) ∧
    (3 ≤ d.attempts →
      fnVerifyOtp (some d) email otp t1 = (.tooManyAttempts, none)) ∧
    (d.attempts = 0 →
      (fnVerifyOtp (some d) email otp t1).1 = .invalidOtp ∧
      (fnVerifyOtp (fnVerifyOtp (some d) email otp t1).2 email otp t2).1
        = .invalidOtp ∧
      (fnVerifyOtp (fnVerifyOtp (fnVerifyOtp (some d) email otp t1).2
        email otp t2).2 email otp t3).1 = .invalidOtp ∧
      fnVerifyOtp (fnVerifyOtp (fnVerifyOtp (fnVerifyOtp (some d) email otp t1).2
        email otp t2).2 email otp t3).2 email otp t4
        = (.tooManyAttempts, none)) := by
  have step : ∀ (d2 : FnOtpData) (t : Int), ¬ (d2.expiresAt < t) →
      fnVerifyOtp (some d2) email otp t =
        if 3 ≤ d2.attempts then (.tooManyAttempts, none)
        else if d2.code ≠ otp then (.invalidOtp, some { d2 with attempts := d2.attempts + 1 })
        else (.ok, none) := by
    intro d2 t hexp
    unfold fnVerifyOtp
    rw [if_neg (by simp [hemail]), if_neg (by simp_all)]
    show (if d2.expiresAt < t then ((.expired, none) : FnVerifyOutcome × Option FnOtpData)
      else if 3 ≤ d2.attempts then (.tooManyAttempts, none)
      else if d2.code ≠ otp then (.invalidOtp, some { d2 with attempts := d2.attempts + 1 })
      else (.ok, none)) = _
    rw [if_neg hexp]
  refine ⟨?_, ?_, ?_⟩
  · intro hlt
    rw [step d t1 h1, if_neg (by omega), if_pos hwrong]
  · intro hge
    rw [step d t1 h1, if_pos hge]
  · intro h0
    have s1 : fnVerifyOtp (some d) email otp t1
        = (.invalidOtp, some { d with attempts := d.attempts + 1 }) := by
      rw [step d t1 h1, if_neg (by omega), if_pos hwrong]
    have s2 : fnVerifyOtp (some { d with attempts := d.attempts + 1 }) email otp t2
        = (.invalidOtp, some { d with attempts := d.attempts + 1 + 1 }) := by
      rw [step { d with attempts := d.attempts + 1 } t2 h2]
      rw [if_neg (show ¬ (3 ≤ d.attempts + 1) by omega),
        if_pos (show d.code ≠ otp from hwrong)]
    have s3 : fnVerifyOtp (some { d with attempts := d.attempts + 1 + 1 }) email otp t3
        = (.invalidOtp, some { d with attempts := d.attempts + 1 + 1 + 1 }) := by
      rw [step { d with attempts := d.attempts + 1 + 1 } t3 h3]
      rw [if_neg (show ¬ (3 ≤ d.attempts + 1 + 1) by omega),
        if_pos (show d.code ≠ otp from hwrong)]
    have s4 : fnVerifyOtp (some { d with attempts := d.attempts + 1 + 1 + 1 }) email otp t4
        = (.tooManyAttempts, none) := by
      rw [step { d with attempts := d.attempts + 1 + 1 + 1 } t4 h4]
      rw [if_pos (show 3 ≤ d.attempts + 1 + 1 + 1 by omega)]
    refine ⟨by rw [s1], ?_, ?_, ?_⟩
    · rw [s1]
      show (fnVerifyOtp (some { d with attempts := d.attempts + 1 }) email otp t2).1
        = .invalidOtp
      rw [s2]
    · rw [s1]
      show (fnVerifyOtp (fnVerifyOtp (some { d with attempts := d.attempts + 1 })
        email otp t2).2 email otp t3).1 = .invalidOtp
      rw [s2]
      show (fnVerifyOtp (some { d with attempts := d.attempts + 1 + 1 }) email otp t3).1
        = .invalidOtp
      rw [s3]
    · rw [s1]
      show fnVerifyOtp (fnVerifyOtp (fnVerifyOtp
        (some { d with attempts := d.attempts + 1 }) email otp t2).2 email otp t3).2
        email otp t4 = (.tooManyAttempts, none)
      rw [s2]
      show fnVerifyOtp (fnVerifyOtp (some { d with attempts := d.attempts + 1 + 1 })
        email otp t3).2 email otp t4 = (.tooManyAttempts, none)
      rw [s3]
      show fnVerifyOtp (some { d with attempts := d.attempts + 1 + 1 + 1 }) email otp t4
        = (.tooManyAttempts, none)
      rw [s4]

theorem fn_verify_otp_attempt_limit_witness :
    fnVerifyOtp (some ⟨"123456", "a@b.com", 0, 300000, 0⟩) "a@b.com" "999999" 1000
      = (.invalidOtp, some ⟨"123456", "a@b.com", 0, 300000, 1⟩) ∧
    fnVerifyOtp (some ⟨"123456", "a@b.com", 0, 300000, 3⟩) "a@b.com" "999999" 1000
      = (.tooManyAttempts, none) := by
  have h := fn_verify_otp_attempt_limit "a@b.com" "999999"
    ⟨"123456", "a@b.com", 0, 300000, 0⟩ 1000 1000 1000 1000
    (by decide) (by decide) (by decide) (by decide) (by decide) (by decide) (by decide)
  have h3 := fn_verify_otp_attempt_limit "a@b.com" "999999"
    ⟨"123456", "a@b.com", 0, 300000, 3⟩ 1000 1000 1000 1000
    (by decide) (by decide) (by decide) (by decide) (by decide) (by decide) (by decide)
  exact ⟨h.1 (by decide), h3.2.1 (by decide)⟩
